import Mathlib

/-!
Verification development for the `lessc0de/edward` repository, whose single
source artifact is the Jupyter notebook `notebooks/iclr2017.ipynb`.  The
notebook is a sequence of markdown cells and Python code cells; the code
cells declare probabilistic models and inference procedures by calling the
external libraries edward, tensorflow, keras and numpy.

We give a shallow embedding of the notebook's code cells:

* `Expr` / `Stmt` form a small Python AST covering exactly the constructs the
  notebook uses (imports, assignments, expression statements, `def`,
  `for _ in range(e)` loops, calls with positional and keyword arguments,
  attribute access, subscripts, list and dict literals, `+ * /` operators).
  Argument and statement sequences are encoded with inline chain
  constructors (`econs`/`scons`) so that every recursive function below is
  plain structural recursion and computes definitionally.
* structural analyses: the names a cell reads and binds, loop / conditional /
  `try` / `class` detection, the functions a cell defines, the callees it
  invokes, the modules it imports;
* an operational semantics: values are Python ints, floats (inert literals),
  strings, bools, lists, `None`, and opaque library objects `Val.obj`.
  Executing a statement sequence yields a trace of call events (one event per
  performed call, named by the syntactic callee), the resulting environment,
  and optionally the first uncaught error (`NameError`, `TypeError`, ...).
  Constructs the notebook never executes (mutation of a subscript, `return`
  outside an interpreted function body, `if`/`while`/`try`, and a `for` loop
  nested inside another loop body) are mapped to the explicit error
  `PyError.unmodeled`; no theorem below depends on such a path.

The fourteen code cells are transcribed verbatim from the notebook source.
-/

set_option maxRecDepth 8000

namespace Iclr2017

/-- Binary operators appearing in the notebook: `+`, `*`, `/`. -/
inductive BinOp where
  | add
  | mul
  | div
deriving DecidableEq

/-- Python runtime values, as far as the notebook needs them.  Objects
created by a library call are opaque `obj` values carrying a descriptive
tag; float literals are inert (`float`), never computed with. -/
inductive Val where
  | int (n : Int)
  | float (lit : String)
  | str (s : String)
  | bool (b : Bool)
  | listv (xs : List Val)
  | pynone
  | obj (tag : String)

/-- Errors the semantics can raise.  `unmodeled` marks a construct or value
combination the embedding deliberately does not model; it never occurs on
any execution path used by a theorem. -/
inductive PyError where
  | nameError (n : String)
  | typeError (msg : String)
  | indexError
  | unmodeled
deriving DecidableEq, Repr

/-- Python expressions.  Sequences (positional arguments, keyword arguments,
list elements, dict items) are encoded with the chain constructors
`enil`/`econs`/`kwcons`/`pcons`, so that all recursion over expressions is
structural.  `sliceAll` is the bare `:` slice in a subscript. -/
inductive Expr where
  | intLit (n : Int)
  | floatLit (lit : String)
  | strLit (s : String)
  | boolLit (b : Bool)
  | noneLit
  | sliceAll
  | name (s : String)
  | attr (e : Expr) (field : String)
  | call (f : Expr) (args : Expr) (kwargs : Expr)
  | binop (op : BinOp) (a b : Expr)
  | listLit (elems : Expr)
  | dictLit (items : Expr)
  | subscript (e : Expr) (ixs : Expr)
  | enil
  | econs (e rest : Expr)
  | kwcons (key : String) (e rest : Expr)
  | pcons (k v rest : Expr)

/-- Python statements.  Statement sequences are chains built from
`snil`/`scons`.  `forRange v e body` is `for v in range(e): body`, the only
loop form the notebook contains.  `ifStmt`, `whileStmt`, `tryExcept` and
`classDef` do not occur in the notebook; they are present so that the
corresponding absence claims are about a type in which they are expressible. -/
inductive Stmt where
  | importAs (module asName : String)
  | fromImport (module : String) (names : List String)
  | assign (target : String) (value : Expr)
  | assignSub (target value : Expr)
  | exprStmt (e : Expr)
  | forRange (var : String) (count : Expr) (body : Stmt)
  | funcDef (fname : String) (params : List String) (body : Stmt)
  | ret (e : Expr)
  | ifStmt (cond : Expr) (thn els : Stmt)
  | whileStmt (cond : Expr) (body : Stmt)
  | tryExcept (body handler : Stmt)
  | classDef (cname : String) (body : Stmt)
  | snil
  | scons (s rest : Stmt)

/-- A notebook code cell: an identifying name and its statements. -/
structure Cell where
  cellName : String
  stmts : Stmt

/-! ### Constructor helpers used by the transcription -/

def nv (s : String) : Expr := .name s

def il (n : Int) : Expr := .intLit n

def fl (lit : String) : Expr := .floatLit lit

def sl (s : String) : Expr := .strLit s

def atm (e : Expr) (field : String) : Expr := .attr e field

def elist : List Expr → Expr := fun l => l.foldr .econs .enil

def kwlist : List (String × Expr) → Expr := fun l =>
  l.foldr (fun p r => .kwcons p.1 p.2 r) .enil

def plist : List (Expr × Expr) → Expr := fun l =>
  l.foldr (fun p r => .pcons p.1 p.2 r) .enil

def cal (f : Expr) (args : List Expr) : Expr := .call f (elist args) .enil

def calk (f : Expr) (args : List Expr) (kw : List (String × Expr)) : Expr :=
  .call f (elist args) (kwlist kw)

def lst (xs : List Expr) : Expr := .listLit (elist xs)

def dct (ps : List (Expr × Expr)) : Expr := .dictLit (plist ps)

def idx (e : Expr) (ixs : List Expr) : Expr := .subscript e (elist ixs)

def chain : List Stmt → Stmt := fun l => l.foldr .scons .snil

/-- `tf.zeros(arg)`. -/
def tfzeros (arg : Expr) : Expr := cal (atm (nv "tf") "zeros") [arg]

/-- `tf.ones(arg)`. -/
def tfones (arg : Expr) : Expr := cal (atm (nv "tf") "ones") [arg]

/-! ### Structural analyses -/

/-- Names an expression reads (occurrences in name position; attribute
fields, keyword names and string literals are not name reads). -/
def exprReads : Expr → List String
  | .name s => [s]
  | .attr e _ => exprReads e
  | .call f args kwargs => exprReads f ++ exprReads args ++ exprReads kwargs
  | .binop _ a b => exprReads a ++ exprReads b
  | .listLit elems => exprReads elems
  | .dictLit items => exprReads items
  | .subscript e ixs => exprReads e ++ exprReads ixs
  | .econs e rest => exprReads e ++ exprReads rest
  | .kwcons _ e rest => exprReads e ++ exprReads rest
  | .pcons k v rest => exprReads k ++ exprReads v ++ exprReads rest
  | _ => []

/-- Names a statement (sequence) binds in the enclosing scope: import
targets, assignment targets, loop variables, `def` and `class` names.
Names assigned inside a function body are local to it and are not included. -/
def stmtBinds : Stmt → List String
  | .importAs _ asName => [asName]
  | .fromImport _ names => names
  | .assign target _ => [target]
  | .forRange v _ body => v :: stmtBinds body
  | .funcDef fname _ _ => [fname]
  | .classDef cname _ => [cname]
  | .ifStmt _ thn els => stmtBinds thn ++ stmtBinds els
  | .whileStmt _ body => stmtBinds body
  | .tryExcept body handler => stmtBinds body ++ stmtBinds handler
  | .scons s rest => stmtBinds s ++ stmtBinds rest
  | _ => []

/-- Names a statement (sequence) reads from the enclosing scope.  A
`for v in range(e)` loop reads the builtin `range`.  A function body's reads
exclude its parameters and its own local bindings (Python's scoping rule:
names assigned in a function are local to it). -/
def stmtReads : Stmt → List String
  | .assign _ value => exprReads value
  | .assignSub target value => exprReads target ++ exprReads value
  | .exprStmt e => exprReads e
  | .forRange _ count body => "range" :: (exprReads count ++ stmtReads body)
  | .funcDef _ params body =>
      (stmtReads body).filter
        (fun n => !(params.contains n) && !((stmtBinds body).contains n))
  | .ret e => exprReads e
  | .ifStmt cond thn els => exprReads cond ++ stmtReads thn ++ stmtReads els
  | .whileStmt cond body => exprReads cond ++ stmtReads body
  | .tryExcept body handler => stmtReads body ++ stmtReads handler
  | .classDef _ body => stmtReads body
  | .scons s rest => stmtReads s ++ stmtReads rest
  | _ => []

/-- Does a statement (sequence) contain a loop or a conditional? -/
def stmtHasLoopOrCond : Stmt → Bool
  | .forRange _ _ _ => true
  | .whileStmt _ _ => true
  | .ifStmt _ _ _ => true
  | .funcDef _ _ body => stmtHasLoopOrCond body
  | .classDef _ body => stmtHasLoopOrCond body
  | .tryExcept body handler => stmtHasLoopOrCond body || stmtHasLoopOrCond handler
  | .scons s rest => stmtHasLoopOrCond s || stmtHasLoopOrCond rest
  | _ => false

/-- Does a statement (sequence) contain a `try`/`except` handler? -/
def stmtHasTry : Stmt → Bool
  | .tryExcept _ _ => true
  | .forRange _ _ body => stmtHasTry body
  | .funcDef _ _ body => stmtHasTry body
  | .classDef _ body => stmtHasTry body
  | .whileStmt _ body => stmtHasTry body
  | .ifStmt _ thn els => stmtHasTry thn || stmtHasTry els
  | .scons s rest => stmtHasTry s || stmtHasTry rest
  | _ => false

/-- Does a statement (sequence) contain a `class` definition? -/
def stmtHasClassDef : Stmt → Bool
  | .classDef _ _ => true
  | .forRange _ _ body => stmtHasClassDef body
  | .funcDef _ _ body => stmtHasClassDef body
  | .whileStmt _ body => stmtHasClassDef body
  | .tryExcept body handler => stmtHasClassDef body || stmtHasClassDef handler
  | .ifStmt _ thn els => stmtHasClassDef thn || stmtHasClassDef els
  | .scons s rest => stmtHasClassDef s || stmtHasClassDef rest
  | _ => false

/-- Names of the functions a statement (sequence) defines with `def`. -/
def stmtFuncDefs : Stmt → List String
  | .funcDef fname _ body => fname :: stmtFuncDefs body
  | .forRange _ _ body => stmtFuncDefs body
  | .classDef _ body => stmtFuncDefs body
  | .whileStmt _ body => stmtFuncDefs body
  | .tryExcept body handler => stmtFuncDefs body ++ stmtFuncDefs handler
  | .ifStmt _ thn els => stmtFuncDefs thn ++ stmtFuncDefs els
  | .scons s rest => stmtFuncDefs s ++ stmtFuncDefs rest
  | _ => []

/-- Modules a statement (sequence) imports. -/
def stmtImportedModules : Stmt → List String
  | .importAs m _ => [m]
  | .fromImport m _ => [m]
  | .forRange _ _ body => stmtImportedModules body
  | .funcDef _ _ body => stmtImportedModules body
  | .classDef _ body => stmtImportedModules body
  | .whileStmt _ body => stmtImportedModules body
  | .tryExcept body handler => stmtImportedModules body ++ stmtImportedModules handler
  | .ifStmt _ thn els => stmtImportedModules thn ++ stmtImportedModules els
  | .scons s rest => stmtImportedModules s ++ stmtImportedModules rest
  | _ => []

/-- The root name of a callee expression (`tf.nn.softplus` has root `tf`,
`Dense(256)(h)` has root `Dense`), as a zero-or-one element list. -/
def calleeRoot : Expr → List String
  | .name s => [s]
  | .attr e _ => calleeRoot e
  | .call f _ _ => calleeRoot f
  | .subscript e _ => calleeRoot e
  | _ => []

/-- All dotted-name components of a callee expression
(`tf.nn.softplus` gives `[tf, nn, softplus]`). -/
def calleeParts : Expr → List String
  | .name s => [s]
  | .attr e field => calleeParts e ++ [field]
  | .call f _ _ => calleeParts f
  | .subscript e _ => calleeParts e
  | _ => []

/-- Root names of the callees of every call occurring in an expression. -/
def exprCallRoots : Expr → List String
  | .call f args kwargs =>
      calleeRoot f ++ exprCallRoots f ++ exprCallRoots args ++ exprCallRoots kwargs
  | .attr e _ => exprCallRoots e
  | .binop _ a b => exprCallRoots a ++ exprCallRoots b
  | .listLit elems => exprCallRoots elems
  | .dictLit items => exprCallRoots items
  | .subscript e ixs => exprCallRoots e ++ exprCallRoots ixs
  | .econs e rest => exprCallRoots e ++ exprCallRoots rest
  | .kwcons _ e rest => exprCallRoots e ++ exprCallRoots rest
  | .pcons k v rest => exprCallRoots k ++ exprCallRoots v ++ exprCallRoots rest
  | _ => []

/-- Dotted-name components of the callees of every call in an expression. -/
def exprCallParts : Expr → List String
  | .call f args kwargs =>
      calleeParts f ++ exprCallParts f ++ exprCallParts args ++ exprCallParts kwargs
  | .attr e _ => exprCallParts e
  | .binop _ a b => exprCallParts a ++ exprCallParts b
  | .listLit elems => exprCallParts elems
  | .dictLit items => exprCallParts items
  | .subscript e ixs => exprCallParts e ++ exprCallParts ixs
  | .econs e rest => exprCallParts e ++ exprCallParts rest
  | .kwcons _ e rest => exprCallParts e ++ exprCallParts rest
  | .pcons k v rest => exprCallParts k ++ exprCallParts v ++ exprCallParts rest
  | _ => []

/-- Call roots of every call a statement (sequence) contains, bodies of
`def`s included. -/
def stmtCallRoots : Stmt → List String
  | .assign _ value => exprCallRoots value
  | .assignSub target value => exprCallRoots target ++ exprCallRoots value
  | .exprStmt e => exprCallRoots e
  | .forRange _ count body => exprCallRoots count ++ stmtCallRoots body
  | .funcDef _ _ body => stmtCallRoots body
  | .ret e => exprCallRoots e
  | .ifStmt cond thn els => exprCallRoots cond ++ stmtCallRoots thn ++ stmtCallRoots els
  | .whileStmt cond body => exprCallRoots cond ++ stmtCallRoots body
  | .tryExcept body handler => stmtCallRoots body ++ stmtCallRoots handler
  | .classDef _ body => stmtCallRoots body
  | .scons s rest => stmtCallRoots s ++ stmtCallRoots rest
  | _ => []

/-- Callee components of every call a statement (sequence) contains. -/
def stmtCallParts : Stmt → List String
  | .assign _ value => exprCallParts value
  | .assignSub target value => exprCallParts target ++ exprCallParts value
  | .exprStmt e => exprCallParts e
  | .forRange _ count body => exprCallParts count ++ stmtCallParts body
  | .funcDef _ _ body => stmtCallParts body
  | .ret e => exprCallParts e
  | .ifStmt cond thn els => exprCallParts cond ++ stmtCallParts thn ++ stmtCallParts els
  | .whileStmt cond body => exprCallParts cond ++ stmtCallParts body
  | .tryExcept body handler => stmtCallParts body ++ stmtCallParts handler
  | .classDef _ body => stmtCallParts body
  | .scons s rest => stmtCallParts s ++ stmtCallParts rest
  | _ => []

/-- Builtins available in a fresh Python interpreter that the notebook
uses: `range` and `float`. -/
def builtinNames : List String := ["range", "float"]

def cellReads (c : Cell) : List String := stmtReads c.stmts

def cellBinds (c : Cell) : List String := stmtBinds c.stmts

def cellFuncDefs (c : Cell) : List String := stmtFuncDefs c.stmts

def cellCallRoots (c : Cell) : List String := stmtCallRoots c.stmts

def cellCallParts (c : Cell) : List String := stmtCallParts c.stmts

def cellImportedModules (c : Cell) : List String := stmtImportedModules c.stmts

def cellNoTry (c : Cell) : Bool := !stmtHasTry c.stmts

def cellNoClassDef (c : Cell) : Bool := !stmtHasClassDef c.stmts

def cellHasLoopOrCond (c : Cell) : Bool := stmtHasLoopOrCond c.stmts

/-- A cell is self-contained when every name it reads is imported or bound
inside that same cell, or is a builtin of a fresh interpreter. -/
def cellSelfContained (c : Cell) : Bool :=
  (cellReads c).all
    (fun n => (cellBinds c).contains n || builtinNames.contains n)

/-- The names a cell reads but neither imports nor binds itself (builtins
excluded): the names it needs from earlier cells. -/
def cellEscapes (c : Cell) : List String :=
  (cellReads c).filter
    (fun n => !((cellBinds c).contains n || builtinNames.contains n))

/-! ### Operational semantics

Executing the notebook means executing its cells in order against a shared
global environment, exactly as a fresh Jupyter kernel does.  An execution
result is a triple `(trace, env, err?)`: the list of call events performed
(in order, one event per call, named by the syntactic callee), the
environment after execution — on an error, the bindings made before the
error persist, as in Python — and the first uncaught error, if any. -/

/-- Global environments: newest binding first. -/
abbrev Env : Type := List (String × Val)

def lookup : Env → String → Option Val
  | [], _ => none
  | (k, v) :: rest, n => if k = n then some v else lookup rest n

def bind (env : Env) (n : String) (v : Val) : Env := (n, v) :: env

/-- A fresh interpreter binds the builtins the notebook uses. -/
def initialEnv : Env :=
  [("range", .obj "builtin:range"), ("float", .obj "builtin:float")]

/-- The display name of a callee expression, used to name call events:
`inference_e.update` for a method call, `Dense()` for calling the result
of a call. -/
def calleeDesc : Expr → String
  | .name s => s
  | .attr e field => calleeDesc e ++ "." ++ field
  | .call f _ _ => calleeDesc f ++ "()"
  | .subscript e _ => calleeDesc e ++ "[]"
  | _ => "expr"

/-- Semantics of `+`, `*`, `/` on the value combinations the notebook
produces.  The key case for the Figure 11 cell is multiplying a list by a
non-int, a `TypeError` in Python.  An operation with a library object on
either side yields a library object (operator overloading / broadcasting).
Combinations that cannot arise in the notebook are `unmodeled`. -/
def binSem : BinOp → Val → Val → Except PyError Val
  | .add, .int m, .int n => .ok (.int (m + n))
  | .add, .listv xs, .listv ys => .ok (.listv (xs ++ ys))
  | .add, .obj t, _ => .ok (.obj t)
  | .add, _, .obj t => .ok (.obj t)
  | .mul, .int m, .int n => .ok (.int (m * n))
  | .mul, .obj t, _ => .ok (.obj t)
  | .mul, _, .obj t => .ok (.obj t)
  | .mul, .listv xs, .int n => .ok (.listv ((List.replicate n.toNat xs).flatten))
  | .mul, .int n, .listv xs => .ok (.listv ((List.replicate n.toNat xs).flatten))
  | .mul, .listv _, _ => .error (.typeError "cannot multiply sequence by non-int")
  | .mul, _, .listv _ => .error (.typeError "cannot multiply sequence by non-int")
  | .div, .obj t, _ => .ok (.obj t)
  | .div, _, .obj t => .ok (.obj t)
  | .div, .int _, .int _ => .ok (.float "quotient")
  | .div, .float _, .int _ => .ok (.float "quotient")
  | .div, .float _, .float _ => .ok (.float "quotient")
  | _, _, _ => .error .unmodeled

/-- Evaluate an expression: the call events performed (in order) and the
value or first error.  Python's order: for a call, the callee is evaluated
first, then positional arguments left to right, then keyword argument
values in source order; the event for the call itself comes after its
arguments.  A chain (`econs`/`kwcons`/`pcons`) evaluates to the list of its
element values. -/
def evalExpr (env : Env) : Expr → List String × Except PyError Val
  | .intLit n => ([], .ok (.int n))
  | .floatLit lit => ([], .ok (.float lit))
  | .strLit s => ([], .ok (.str s))
  | .boolLit b => ([], .ok (.bool b))
  | .noneLit => ([], .ok .pynone)
  | .sliceAll => ([], .ok (.obj "slice"))
  | .name s =>
      match lookup env s with
      | some v => ([], .ok v)
      | none => ([], .error (.nameError s))
  | .attr e field =>
      match evalExpr env e with
      | (t, .error err) => (t, .error err)
      | (t, .ok (.obj tag)) => (t, .ok (.obj (tag ++ "." ++ field)))
      | (t, .ok _) => (t, .error .unmodeled)
  | .call f args kwargs =>
      match evalExpr env f with
      | (t1, .error err) => (t1, .error err)
      | (t1, .ok vf) =>
        match evalExpr env args with
        | (t2, .error err) => (t1 ++ t2, .error err)
        | (t2, .ok _) =>
          match evalExpr env kwargs with
          | (t3, .error err) => (t1 ++ t2 ++ t3, .error err)
          | (t3, .ok _) =>
            match vf with
            | .obj _ => (t1 ++ t2 ++ t3 ++ [calleeDesc f], .ok (.obj (calleeDesc f)))
            | _ => (t1 ++ t2 ++ t3, .error (.typeError "object is not callable"))
  | .binop op a b =>
      match evalExpr env a with
      | (t1, .error err) => (t1, .error err)
      | (t1, .ok va) =>
        match evalExpr env b with
        | (t2, .error err) => (t1 ++ t2, .error err)
        | (t2, .ok vb) => (t1 ++ t2, binSem op va vb)
  | .listLit elems =>
      match evalExpr env elems with
      | (t, .error err) => (t, .error err)
      | (t, .ok v) => (t, .ok v)
  | .dictLit items =>
      match evalExpr env items with
      | (t, .error err) => (t, .error err)
      | (t, .ok _) => (t, .ok (.obj "dict"))
  | .subscript e ixs =>
      match evalExpr env e with
      | (t1, .error err) => (t1, .error err)
      | (t1, .ok ve) =>
        match evalExpr env ixs with
        | (t2, .error err) => (t1 ++ t2, .error err)
        | (t2, .ok vixs) =>
          match ve, vixs with
          | .obj tag, _ => (t1 ++ t2, .ok (.obj (tag ++ ".getitem")))
          | .listv xs, .listv [.int i] =>
              if h : 0 ≤ i ∧ i.toNat < xs.length then
                (t1 ++ t2, .ok (xs.get ⟨i.toNat, h.2⟩))
              else if 0 ≤ i then (t1 ++ t2, .error .indexError)
              else (t1 ++ t2, .error .unmodeled)
          | _, _ => (t1 ++ t2, .error .unmodeled)
  | .enil => ([], .ok (.listv []))
  | .econs e rest =>
      match evalExpr env e with
      | (t1, .error err) => (t1, .error err)
      | (t1, .ok v) =>
        match evalExpr env rest with
        | (t2, .error err) => (t1 ++ t2, .error err)
        | (t2, .ok (.listv vs)) => (t1 ++ t2, .ok (.listv (v :: vs)))
        | (t2, .ok _) => (t1 ++ t2, .error .unmodeled)
  | .kwcons _ e rest =>
      match evalExpr env e with
      | (t1, .error err) => (t1, .error err)
      | (t1, .ok v) =>
        match evalExpr env rest with
        | (t2, .error err) => (t1 ++ t2, .error err)
        | (t2, .ok (.listv vs)) => (t1 ++ t2, .ok (.listv (v :: vs)))
        | (t2, .ok _) => (t1 ++ t2, .error .unmodeled)
  | .pcons k v rest =>
      match evalExpr env k with
      | (t1, .error err) => (t1, .error err)
      | (t1, .ok vk) =>
        match evalExpr env v with
        | (t2, .error err) => (t1 ++ t2, .error err)
        | (t2, .ok vv) =>
          match evalExpr env rest with
          | (t3, .error err) => (t1 ++ t2 ++ t3, .error err)
          | (t3, .ok (.listv vs)) => (t1 ++ t2 ++ t3, .ok (.listv (vk :: vv :: vs)))
          | (t3, .ok _) => (t1 ++ t2 ++ t3, .error .unmodeled)

/-- Execution result of statements: call events, environment after
execution, and the first uncaught error if any. -/
abbrev Res : Type := List String × Env × Option PyError

/-- Sequential composition of execution results: if `r` raised, stop with
`r`; otherwise continue from its environment and concatenate traces. -/
def seqRes (r : Res) (f : Env → Res) : Res :=
  match r with
  | (t1, env1, some err) => (t1, env1, some err)
  | (t1, env1, none) =>
    match f env1 with
    | (t2, env2, err2) => (t1 ++ t2, env2, err2)

/-- Execute loop-free statements.  An `import` binds the module object, a
`from` import binds each imported name, an assignment binds its target to
the value of its right-hand side (nothing is bound when that evaluation
raises), a `def` binds the function name to a function object (its body is
not executed).  Constructs the notebook never executes on any path used
below — subscript assignment, `return`, `if`, `while`, `try`, and a loop
nested inside another loop body — raise `unmodeled`. -/
def execSimple : Env → Stmt → Res
  | env, .importAs m asName => ([], bind env asName (.obj ("module:" ++ m)), none)
  | env, .fromImport m names =>
      ([], names.foldl (fun e n => bind e n (.obj (m ++ "." ++ n))) env, none)
  | env, .assign target value =>
      match evalExpr env value with
      | (t, .error err) => (t, env, some err)
      | (t, .ok v) => (t, bind env target v, none)
  | env, .exprStmt e =>
      match evalExpr env e with
      | (t, .error err) => (t, env, some err)
      | (t, .ok _) => (t, env, none)
  | env, .funcDef fname _ _ => ([], bind env fname (.obj ("function:" ++ fname)), none)
  | env, .classDef cname _ => ([], bind env cname (.obj ("class:" ++ cname)), none)
  | env, .snil => ([], env, none)
  | env, .scons s rest =>
      match execSimple env s with
      | (t1, env1, some err) => (t1, env1, some err)
      | (t1, env1, none) =>
        match execSimple env1 rest with
        | (t2, env2, err2) => (t1 ++ t2, env2, err2)
  | env, _ => ([], env, some .unmodeled)

/-- Run a loop body `n` times (the body itself must be loop-free). -/
def execIterN (body : Stmt) : Nat → Env → Res
  | 0, env => ([], env, none)
  | n + 1, env =>
      match execSimple env body with
      | (t1, env1, some err) => (t1, env1, some err)
      | (t1, env1, none) =>
        match execIterN body n env1 with
        | (t2, env2, err2) => (t1 ++ t2, env2, err2)

/-- Execute a cell-level statement sequence: like `execSimple`, but a
`for v in range(e)` loop at this level evaluates `e` and runs its body that
many times. -/
def execTop : Env → Stmt → Res
  | env, .scons s rest =>
      match execTop env s with
      | (t1, env1, some err) => (t1, env1, some err)
      | (t1, env1, none) =>
        match execTop env1 rest with
        | (t2, env2, err2) => (t1 ++ t2, env2, err2)
  | env, .forRange _ count body =>
      match evalExpr env count with
      | (t, .error err) => (t, env, some err)
      | (t, .ok (.int n)) =>
        match execIterN body n.toNat env with
        | (t2, env2, err2) => (t ++ t2, env2, err2)
      | (t, .ok _) => (t, env, some .unmodeled)
  | env, s => execSimple env s

/-- The environment after running a list of cells in order (a later cell
sees the bindings of earlier cells; bindings made before an error persist,
as in a Jupyter kernel). -/
def envAfterCells : Env → List Cell → Env
  | env, [] => env
  | env, c :: rest => envAfterCells (execTop env c.stmts).2.1 rest

/-- The per-cell error outcomes of running a list of cells in order. -/
def cellsErrors : Env → List Cell → List (Option PyError)
  | _, [] => []
  | env, c :: rest =>
      (execTop env c.stmts).2.2 :: cellsErrors (execTop env c.stmts).2.1 rest

/-- `n` copies of a trace, concatenated. -/
def repFlat : Nat → List String → List String
  | 0, _ => []
  | n + 1, l => l ++ repFlat n l

/-! ### The notebook, transcribed

The fourteen code cells of `notebooks/iclr2017.ipynb`, in order, each as a
list of statements.  Comments quote the figure captions. -/

/-- Figure 1: Beta-Bernoulli program. -/
def fig1List : List Stmt := [
  .importAs "tensorflow" "tf",
  .fromImport "edward.models" ["Bernoulli", "Beta"],
  .assign "theta" (cal (nv "Beta") [fl "1.0", fl "1.0"]),
  .assign "x" (cal (nv "Bernoulli") [.binop .mul (tfones (il 50)) (nv "theta")])]

def fig1Cell : Cell := ⟨"fig1", chain fig1List⟩

/-- Figure 2: variational auto-encoder. -/
def fig2List : List Stmt := [
  .importAs "tensorflow" "tf",
  .fromImport "edward.models" ["Bernoulli", "Normal"],
  .fromImport "keras.layers" ["Dense"],
  .assign "N" (il 55000),
  .assign "d" (il 50),
  .assign "z" (calk (nv "Normal") []
    [("loc", tfzeros (lst [nv "N", nv "d"])), ("scale", tfones (lst [nv "N", nv "d"]))]),
  .assign "h" (cal (calk (nv "Dense") [il 256] [("activation", sl "relu")]) [nv "z"]),
  .assign "x" (calk (nv "Bernoulli") []
    [("logits", cal (calk (nv "Dense") [.binop .mul (il 28) (il 28)]
      [("activation", .noneLit)]) [nv "h"])]),
  .assign "qx" (cal (atm (nv "tf") "placeholder")
    [atm (nv "tf") "float32", lst [nv "N", .binop .mul (il 28) (il 28)]]),
  .assign "qh" (cal (calk (nv "Dense") [il 256] [("activation", sl "relu")]) [nv "qx"]),
  .assign "qz" (calk (nv "Normal") []
    [("loc", cal (calk (nv "Dense") [nv "d"] [("activation", .noneLit)]) [nv "qh"]),
     ("scale", cal (calk (nv "Dense") [nv "d"] [("activation", sl "softplus")]) [nv "qh"])])]

def fig2Cell : Cell := ⟨"fig2", chain fig2List⟩

/-- Figure 3: Bayesian recurrent neural network. -/
def fig3List : List Stmt := [
  .importAs "edward" "ed",
  .importAs "tensorflow" "tf",
  .fromImport "edward.models" ["Normal"],
  .assign "H" (il 50),
  .assign "D" (il 10),
  .funcDef "rnn_cell" ["hprev", "xt"] (chain [
    .ret (cal (atm (nv "tf") "tanh")
      [.binop .add
        (.binop .add (cal (atm (nv "ed") "dot") [nv "hprev", nv "Wh"])
          (cal (atm (nv "ed") "dot") [nv "xt", nv "Wx"]))
        (nv "bh")])]),
  .assign "Wh" (calk (nv "Normal") []
    [("loc", tfzeros (lst [nv "H", nv "H"])), ("scale", tfones (lst [nv "H", nv "H"]))]),
  .assign "Wx" (calk (nv "Normal") []
    [("loc", tfzeros (lst [nv "D", nv "H"])), ("scale", tfones (lst [nv "D", nv "H"]))]),
  .assign "Wy" (calk (nv "Normal") []
    [("loc", tfzeros (lst [nv "H", il 1])), ("scale", tfones (lst [nv "H", il 1]))]),
  .assign "bh" (calk (nv "Normal") [] [("loc", tfzeros (nv "H")), ("scale", tfones (nv "H"))]),
  .assign "by" (calk (nv "Normal") [] [("loc", tfzeros (il 1)), ("scale", tfones (il 1))]),
  .assign "x" (cal (atm (nv "tf") "placeholder")
    [atm (nv "tf") "float32", lst [.noneLit, nv "D"]]),
  .assign "h" (calk (atm (nv "tf") "scan") [nv "rnn_cell", nv "x"]
    [("initializer", tfzeros (nv "H"))]),
  .assign "y" (calk (nv "Normal") []
    [("loc", .binop .add (cal (atm (nv "tf") "matmul") [nv "h", nv "Wy"]) (nv "by")),
     ("scale", fl "1.0")])]

def fig3Cell : Cell := ⟨"fig3", chain fig3List⟩

/-- Figure 5: hierarchical model (mixture of Gaussians). -/
def fig5List : List Stmt := [
  .importAs "tensorflow" "tf",
  .fromImport "edward.models" ["Categorical", "Normal"],
  .assign "N" (il 10000),
  .assign "D" (il 2),
  .assign "K" (il 5),
  .assign "beta" (calk (nv "Normal") []
    [("loc", tfzeros (lst [nv "K", nv "D"])), ("scale", tfones (lst [nv "K", nv "D"]))]),
  .assign "z" (calk (nv "Categorical") [] [("logits", tfzeros (lst [nv "N", nv "K"]))]),
  .assign "x" (calk (nv "Normal") []
    [("loc", cal (atm (nv "tf") "gather") [nv "beta", nv "z"]),
     ("scale", tfones (lst [nv "N", nv "D"]))])]

def fig5Cell : Cell := ⟨"fig5", chain fig5List⟩

/-- Figure 6 (left): variational inference for the Figure 5 model. -/
def fig6LeftList : List Stmt := [
  .importAs "edward" "ed",
  .importAs "numpy" "np",
  .importAs "tensorflow" "tf",
  .fromImport "edward.models" ["Categorical", "Normal"],
  .assign "x_train" (cal (atm (nv "np") "zeros") [lst [nv "N", nv "D"]]),
  .assign "qbeta" (calk (nv "Normal") []
    [("loc", cal (atm (nv "tf") "Variable") [tfzeros (lst [nv "K", nv "D"])]),
     ("scale", cal (atm (nv "tf") "exp")
       [cal (atm (nv "tf") "Variable") [tfzeros (lst [nv "K", nv "D"])]])]),
  .assign "qz" (calk (nv "Categorical") []
    [("logits", cal (atm (nv "tf") "Variable") [tfzeros (lst [nv "N", nv "K"])])]),
  .assign "inference" (calk (atm (nv "ed") "VariationalInference")
    [dct [(nv "beta", nv "qbeta"), (nv "z", nv "qz")]]
    [("data", dct [(nv "x", nv "x_train")])])]

def fig6LeftCell : Cell := ⟨"fig6_left", chain fig6LeftList⟩

/-- Figure 6 (right): Monte Carlo for the Figure 5 model. -/
def fig6RightList : List Stmt := [
  .importAs "edward" "ed",
  .importAs "numpy" "np",
  .importAs "tensorflow" "tf",
  .fromImport "edward.models" ["Empirical"],
  .assign "x_train" (cal (atm (nv "np") "zeros") [lst [nv "N", nv "D"]]),
  .assign "T" (il 10000),
  .assign "qbeta" (calk (nv "Empirical") []
    [("params", cal (atm (nv "tf") "Variable") [tfzeros (lst [nv "T", nv "K", nv "D"])])]),
  .assign "qz" (calk (nv "Empirical") []
    [("params", cal (atm (nv "tf") "Variable") [tfzeros (lst [nv "T", nv "N"])])])]

def fig6RightCell : Cell := ⟨"fig6_right", chain fig6RightList⟩

/-- Figure 7: generative adversarial network. -/
def fig7List : List Stmt := [
  .importAs "edward" "ed",
  .importAs "numpy" "np",
  .importAs "tensorflow" "tf",
  .fromImport "edward.models" ["Normal"],
  .fromImport "keras.layers" ["Dense"],
  .assign "N" (il 55000),
  .assign "d" (il 50),
  .funcDef "generative_network" ["eps"] (chain [
    .assign "h" (cal (calk (nv "Dense") [il 256] [("activation", sl "relu")]) [nv "eps"]),
    .ret (cal (calk (nv "Dense") [.binop .mul (il 28) (il 28)]
      [("activation", .noneLit)]) [nv "h"])]),
  .funcDef "discriminative_network" ["x"] (chain [
    .assign "h" (cal (calk (nv "Dense") [.binop .mul (il 28) (il 28)]
      [("activation", sl "relu")]) [nv "x"]),
    .ret (cal (calk (nv "Dense") [il 1] [("activation", .noneLit)]) [nv "h"])]),
  .assign "x_train" (cal (atm (nv "np") "zeros") [lst [nv "N", .binop .mul (il 28) (il 28)]]),
  .assign "eps" (calk (nv "Normal") []
    [("loc", tfzeros (lst [nv "N", nv "d"])), ("scale", tfones (lst [nv "N", nv "d"]))]),
  .assign "x" (cal (nv "generative_network") [nv "eps"]),
  .assign "inference" (calk (atm (nv "ed") "GANInference") []
    [("data", dct [(nv "x", nv "x_train")]),
     ("discriminator", nv "discriminative_network")])]

def fig7Cell : Cell := ⟨"fig7", chain fig7List⟩

/-- The variational EM cell (Figure *): the loop body. -/
def emLoopBody : Stmt := chain [
  .exprStmt (cal (atm (nv "inference_e") "update") []),
  .exprStmt (cal (atm (nv "inference_m") "update") [])]

/-- The variational EM cell: `for _ in range(10000):` alternating updates. -/
def emLoopStmt : Stmt := .forRange "_" (il 10000) emLoopBody

/-- The variational EM cell: everything before the loop. -/
def emPreList : List Stmt := [
  .importAs "edward" "ed",
  .importAs "numpy" "np",
  .importAs "tensorflow" "tf",
  .fromImport "edward.models" ["Categorical", "PointMass"],
  .assign "x_train" (cal (atm (nv "np") "zeros") [lst [nv "N", nv "D"]]),
  .assign "qbeta" (calk (nv "PointMass") []
    [("params", cal (atm (nv "tf") "Variable") [tfzeros (lst [nv "K", nv "D"])])]),
  .assign "qz" (calk (nv "Categorical") []
    [("logits", cal (atm (nv "tf") "Variable") [tfzeros (lst [nv "N", nv "K"])])]),
  .assign "inference_e" (calk (atm (nv "ed") "VariationalInference")
    [dct [(nv "z", nv "qz")]]
    [("data", dct [(nv "x", nv "x_train"), (nv "beta", nv "qbeta")])]),
  .assign "inference_m" (calk (atm (nv "ed") "MAP")
    [dct [(nv "beta", nv "qbeta")]]
    [("data", dct [(nv "x", nv "x_train"), (nv "z", nv "qz")])]),
  .exprStmt (cal (atm (nv "inference_e") "initialize") []),
  .exprStmt (cal (atm (nv "inference_m") "initialize") []),
  .exprStmt (cal (atm (cal (atm (nv "tf") "initialize_all_variables") []) "run") [])]

/-- Figure *: variational EM for the Figure 5 model. -/
def varEmCell : Cell := ⟨"var_em", chain (emPreList ++ [emLoopStmt])⟩

/-- Figure *: data subsampling. -/
def subsamplingList : List Stmt := [
  .importAs "edward" "ed",
  .importAs "tensorflow" "tf",
  .fromImport "edward.models" ["Categorical", "Normal"],
  .assign "N" (il 10000),
  .assign "M" (il 128),
  .assign "D" (il 2),
  .assign "K" (il 5),
  .assign "x_batch" (cal (atm (nv "tf") "placeholder")
    [atm (nv "tf") "float32", lst [nv "M", nv "D"]]),
  .assign "beta" (calk (nv "Normal") []
    [("loc", tfzeros (lst [nv "K", nv "D"])), ("scale", tfones (lst [nv "K", nv "D"]))]),
  .assign "z" (calk (nv "Categorical") [] [("logits", tfzeros (lst [nv "M", nv "K"]))]),
  .assign "x" (calk (nv "Normal") []
    [("loc", cal (atm (nv "tf") "gather") [nv "beta", nv "z"]),
     ("scale", tfones (lst [nv "M", nv "D"]))]),
  .assign "qbeta" (calk (nv "Normal") []
    [("loc", cal (atm (nv "tf") "Variable") [tfzeros (lst [nv "K", nv "D"])]),
     ("scale", cal (atm (atm (nv "tf") "nn") "softplus")
       [cal (atm (nv "tf") "Variable") [tfzeros (lst [nv "K", nv "D"])]])]),
  .assign "qz" (calk (nv "Categorical") []
    [("logits", cal (atm (nv "tf") "Variable") [tfzeros (lst [nv "M", nv "D"])])]),
  .assign "inference" (calk (atm (nv "ed") "VariationalInference")
    [dct [(nv "beta", nv "qbeta"), (nv "z", nv "qz")]]
    [("data", dct [(nv "x", nv "x_batch")])]),
  .exprStmt (calk (atm (nv "inference") "initialize") []
    [("scale", dct [
      (nv "x", .binop .div (cal (nv "float") [nv "N"]) (nv "M")),
      (nv "z", .binop .div (cal (nv "float") [nv "N"]) (nv "M"))])])]

def subsamplingCell : Cell := ⟨"subsampling", chain subsamplingList⟩

/-- Figure 9: Bayesian logistic regression with HMC. -/
def fig9List : List Stmt := [
  .importAs "edward" "ed",
  .importAs "numpy" "np",
  .importAs "tensorflow" "tf",
  .fromImport "edward.models" ["Bernoulli", "Empirical", "Normal"],
  .assign "N" (il 581012),
  .assign "D" (il 54),
  .assign "T" (il 100),
  .assign "x_data" (cal (atm (nv "np") "zeros") [lst [nv "N", nv "D"]]),
  .assign "y_data" (cal (atm (nv "np") "zeros") [lst [nv "N"]]),
  .assign "x" (calk (atm (nv "tf") "Variable") [nv "x_data"] [("trainable", .boolLit false)]),
  .assign "beta" (calk (nv "Normal") [] [("loc", tfzeros (nv "D")), ("scale", tfones (nv "D"))]),
  .assign "y" (calk (nv "Bernoulli") [] [("logits", cal (atm (nv "ed") "dot") [nv "x", nv "beta"])]),
  .assign "qbeta" (calk (nv "Empirical") []
    [("params", cal (atm (nv "tf") "Variable") [tfzeros (lst [nv "T", nv "D"])])]),
  .assign "inference" (calk (atm (nv "ed") "HMC") [dct [(nv "beta", nv "qbeta")]]
    [("data", dct [(nv "y", nv "y_data")])]),
  .exprStmt (calk (atm (nv "inference") "run") []
    [("step_size", .binop .div (fl "0.5") (nv "N")), ("n_steps", il 10)])]

def fig9Cell : Cell := ⟨"fig9", chain fig9List⟩

/-- Figure 10: Bayesian neural network for classification. -/
def fig10List : List Stmt := [
  .importAs "tensorflow" "tf",
  .fromImport "edward.models" ["Bernoulli", "Normal"],
  .assign "N" (il 1000),
  .assign "D" (il 528),
  .assign "H" (il 256),
  .assign "W_0" (calk (nv "Normal") []
    [("loc", tfzeros (lst [nv "D", nv "H"])), ("scale", tfones (lst [nv "D", nv "H"]))]),
  .assign "W_1" (calk (nv "Normal") []
    [("loc", tfzeros (lst [nv "H", il 1])), ("scale", tfones (lst [nv "H", il 1]))]),
  .assign "b_0" (calk (nv "Normal") [] [("loc", tfzeros (nv "H")), ("scale", tfones (nv "H"))]),
  .assign "b_1" (calk (nv "Normal") [] [("loc", tfzeros (il 1)), ("scale", tfones (il 1))]),
  .assign "x" (cal (atm (nv "tf") "placeholder")
    [atm (nv "tf") "float32", lst [nv "N", nv "D"]]),
  .assign "y" (calk (nv "Bernoulli") []
    [("logits", .binop .add
      (cal (atm (nv "tf") "matmul")
        [cal (atm (atm (nv "tf") "nn") "tanh")
          [.binop .add (cal (atm (nv "tf") "matmul") [nv "x", nv "W_0"]) (nv "b_0")],
         nv "W_1"])
      (nv "b_1"))])]

def fig10Cell : Cell := ⟨"fig10", chain fig10List⟩

/-- Figure 11: latent Dirichlet allocation. -/
def fig11List : List Stmt := [
  .importAs "tensorflow" "tf",
  .fromImport "edward.models" ["Categorical", "Dirichlet"],
  .assign "D" (il 4),
  .assign "N" (lst [il 11502, il 213, il 1523, il 1351]),
  .assign "K" (il 10),
  .assign "V" (il 100000),
  .assign "theta" (cal (nv "Dirichlet") [.binop .add (tfzeros (lst [nv "D", nv "K"])) (fl "0.1")]),
  .assign "phi" (cal (nv "Dirichlet") [.binop .add (tfzeros (lst [nv "K", nv "V"])) (fl "0.05")]),
  .assign "z" (.binop .mul (lst [.binop .mul (lst [il 0]) (nv "N")]) (nv "D")),
  .assign "w" (.binop .mul (lst [.binop .mul (lst [il 0]) (nv "N")]) (nv "D")),
  .forRange "d" (nv "D") (chain [
    .forRange "n" (idx (nv "N") [nv "d"]) (chain [
      .assignSub (idx (idx (nv "z") [nv "d"]) [nv "n"])
        (cal (nv "Categorical") [idx (nv "theta") [nv "d", .sliceAll]]),
      .assignSub (idx (idx (nv "w") [nv "d"]) [nv "n"])
        (cal (nv "Categorical")
          [idx (nv "phi") [idx (idx (nv "z") [nv "d"]) [nv "n"], .sliceAll]])])])]

def fig11Cell : Cell := ⟨"fig11", chain fig11List⟩

/-- Figure 12: Gaussian matrix factorization. -/
def fig12List : List Stmt := [
  .importAs "tensorflow" "tf",
  .fromImport "edward.models" ["Normal"],
  .assign "N" (il 10),
  .assign "M" (il 10),
  .assign "K" (il 5),
  .assign "U" (calk (nv "Normal") []
    [("loc", tfzeros (lst [nv "M", nv "K"])), ("scale", tfones (lst [nv "M", nv "K"]))]),
  .assign "V" (calk (nv "Normal") []
    [("loc", tfzeros (lst [nv "N", nv "K"])), ("scale", tfones (lst [nv "N", nv "K"]))]),
  .assign "Y" (calk (nv "Normal") []
    [("loc", calk (atm (nv "tf") "matmul") [nv "U", nv "V"] [("transpose_b", .boolLit true)]),
     ("scale", tfones (lst [nv "N", nv "M"]))])]

def fig12Cell : Cell := ⟨"fig12", chain fig12List⟩

/-- Figure 13: Dirichlet process mixture model. -/
def fig13List : List Stmt := [
  .importAs "tensorflow" "tf",
  .fromImport "edward.models" ["DirichletProcess", "Normal"],
  .assign "N" (il 1000),
  .assign "D" (il 5),
  .assign "dp" (calk (nv "DirichletProcess") []
    [("alpha", fl "1.0"),
     ("base", calk (nv "Normal") [] [("loc", tfzeros (nv "D")), ("scale", tfones (nv "D"))])]),
  .assign "mu" (cal (atm (nv "dp") "sample") [nv "N"]),
  .assign "x" (calk (nv "Normal") []
    [("loc", nv "loc"), ("scale", tfones (lst [nv "N", nv "D"]))])]

def fig13Cell : Cell := ⟨"fig13", chain fig13List⟩

/-- All fourteen code cells, in notebook order. -/
def notebookCells : List Cell := [
  fig1Cell, fig2Cell, fig3Cell, fig5Cell, fig6LeftCell, fig6RightCell, fig7Cell,
  varEmCell, subsamplingCell, fig9Cell, fig10Cell, fig11Cell, fig12Cell, fig13Cell]

/-- The cells preceding the variational EM cell. -/
def priorCells : List Cell := [
  fig1Cell, fig2Cell, fig3Cell, fig5Cell, fig6LeftCell, fig6RightCell, fig7Cell]

/-- The kernel state when the variational EM cell starts, in a sequential
run of the notebook. -/
def envBeforeEM : Env := envAfterCells initialEnv priorCells

/-- The environment after the EM cell's pre-loop statements, over any
incoming environment `env0`: the cell's own ten bindings on top of `env0`. -/
def emEnvAfterPre (env0 : Env) : Env :=
  ("inference_m", .obj "ed.MAP") ::
  ("inference_e", .obj "ed.VariationalInference") ::
  ("qz", .obj "Categorical") ::
  ("qbeta", .obj "PointMass") ::
  ("x_train", .obj "np.zeros") ::
  ("PointMass", .obj "edward.models.PointMass") ::
  ("Categorical", .obj "edward.models.Categorical") ::
  ("tf", .obj "module:tensorflow") ::
  ("np", .obj "module:numpy") ::
  ("ed", .obj "module:edward") :: env0

/-- A minimal kernel state binding exactly the six names the EM cell reads
from earlier cells. -/
def emWitnessEnv : Env :=
  [("N", .obj "vN"), ("D", .obj "vD"), ("K", .obj "vK"),
   ("beta", .obj "vbeta"), ("z", .obj "vz"), ("x", .obj "vx")]

/-- The call events of the EM cell up to the loop. -/
def emPreEvents : List String := [
  "np.zeros", "tf.zeros", "tf.Variable", "PointMass", "tf.zeros", "tf.Variable",
  "Categorical", "ed.VariationalInference", "ed.MAP", "inference_e.initialize",
  "inference_m.initialize", "tf.initialize_all_variables",
  "tf.initialize_all_variables().run"]

/-- The call events of one EM loop iteration. -/
def emPairEvents : List String := ["inference_e.update", "inference_m.update"]

/-- All functions the notebook itself defines with `def`. -/
def notebookFuncDefs : List String := (notebookCells.map cellFuncDefs).flatten

/-- All modules the notebook imports. -/
def notebookImportedModules : List String :=
  (notebookCells.map cellImportedModules).flatten

/-- All dotted-name components of every callee in the notebook. -/
def notebookCallParts : List String := (notebookCells.map cellCallParts).flatten

/-- Python modules providing concurrency, scheduling, caching, protocol
handling, resource pooling or subprocess control. -/
def concurrencyModuleNames : List String :=
  ["threading", "multiprocessing", "asyncio", "concurrent", "concurrent.futures",
   "sched", "queue", "subprocess", "socket", "signal", "functools"]

/-- Names of concurrency / scheduling / caching / pooling operations. -/
def concurrencyCallNames : List String :=
  ["Thread", "Process", "Pool", "ThreadPoolExecutor", "ProcessPoolExecutor",
   "Lock", "RLock", "Semaphore", "Condition", "Barrier", "sleep", "fork",
   "spawn", "submit", "join", "start", "acquire", "release", "lru_cache",
   "cache", "Queue", "Coordinator"]

/-! ### Helper lemmas about the semantics -/

theorem execTop_snil (env : Env) : execTop env .snil = ([], env, none) := rfl

theorem execTop_scons (env : Env) (s rest : Stmt) :
    execTop env (.scons s rest) = seqRes (execTop env s) (fun e => execTop e rest) := rfl

theorem execIterN_succ (body : Stmt) (n : Nat) (env : Env) :
    execIterN body (n + 1) env =
      seqRes (execSimple env body) (fun e => execIterN body n e) := rfl

theorem execTop_forRange (env : Env) (v : String) (c : Expr) (body : Stmt) :
    execTop env (.forRange v c body) =
      match evalExpr env c with
      | (t, .error err) => (t, env, some err)
      | (t, .ok (.int n)) => seqRes (t, env, none) (fun e => execIterN body n.toNat e)
      | (t, .ok _) => (t, env, some .unmodeled) := rfl

theorem seqRes_ok (t1 : List String) (env1 : Env) (f : Env → Res) :
    seqRes (t1, env1, none) f = (t1 ++ (f env1).1, (f env1).2.1, (f env1).2.2) := by
  rcases h : f env1 with ⟨t2, env2, err2⟩
  simp [seqRes, h]

theorem seqRes_ok2 (f : Env → Res) (t1 : List String) (env1 : Env)
    (t2 : List String) (env2 : Env) (err2 : Option PyError)
    (h : f env1 = (t2, env2, err2)) :
    seqRes (t1, env1, none) f = (t1 ++ t2, env2, err2) := by
  simp [seqRes, h]

theorem seqRes_assoc (r : Res) (f g : Env → Res) :
    seqRes (seqRes r f) g = seqRes r (fun e => seqRes (f e) g) := by
  rcases r with ⟨t1, env1, err1⟩
  cases err1 with
  | some err => rfl
  | none =>
      rcases hf : f env1 with ⟨t2, env2, err2⟩
      cases err2 with
      | some err => simp [seqRes, hf]
      | none =>
          rcases hg : g env2 with ⟨t3, env3, err3⟩
          simp [seqRes, hf, hg]

/-- Executing `xs ++ ys` is executing `xs`, then executing `ys` from the
resulting environment (stopping if `xs` raised). -/
theorem execTop_chain_append (xs ys : List Stmt) : ∀ env : Env,
    execTop env (chain (xs ++ ys)) =
      seqRes (execTop env (chain xs)) (fun e => execTop e (chain ys)) := by
  induction xs with
  | nil =>
      intro env
      rw [List.nil_append]
      show execTop env (chain ys) =
        seqRes (([], env, none) : Res) (fun e => execTop e (chain ys))
      rw [seqRes_ok]
      rcases h : execTop env (chain ys) with ⟨t, e, err⟩
      simp [h]
  | cons s rest ih =>
      intro env
      rw [List.cons_append]
      show execTop env (.scons s (chain (rest ++ ys))) =
        seqRes (execTop env (.scons s (chain rest))) (fun e => execTop e (chain ys))
      rw [execTop_scons, execTop_scons, seqRes_assoc]
      congr 1
      funext e
      exact ih e

/-- Iterating a loop body that neither changes the environment nor raises
repeats its trace `n` times. -/
theorem execIterN_fixed (body : Stmt) (env : Env) (ev : List String)
    (h : execSimple env body = (ev, env, none)) :
    ∀ n : Nat, execIterN body n env = (repFlat n ev, env, none) := by
  intro n
  induction n with
  | zero => rfl
  | succ k ih =>
      rw [execIterN_succ, h, seqRes_ok]
      simp [ih, repFlat]

/-- Running the EM cell's pre-loop statements over any environment that
binds the six names the cell reads from earlier cells: the thirteen
statements execute without error, trace `emPreEvents`, and add the cell's
ten bindings. -/
theorem em_pre_exec (env0 : Env) (vN vD vK vbet vz vx : Val)
    (hN : lookup env0 "N" = some vN) (hD : lookup env0 "D" = some vD)
    (hK : lookup env0 "K" = some vK) (hbet : lookup env0 "beta" = some vbet)
    (hz : lookup env0 "z" = some vz) (hx : lookup env0 "x" = some vx) :
    execTop env0 (chain emPreList) = (emPreEvents, emEnvAfterPre env0, none) := by
  simp [emPreList, chain, execTop, execSimple, evalExpr, seqRes, lookup, bind,
    binSem, calleeDesc, tfzeros, tfones, cal, calk, atm, nv, lst, dct, elist,
    kwlist, plist, il, emEnvAfterPre, emPreEvents, hN, hD, hK, hbet, hz, hx]

/-- One iteration of the EM loop body leaves the environment unchanged and
traces exactly one `inference_e.update` then one `inference_m.update`. -/
theorem em_loop_body_exec (env0 : Env) :
    execSimple (emEnvAfterPre env0) emLoopBody =
      (emPairEvents, emEnvAfterPre env0, none) := rfl

/-- A `for v in range(k)` loop whose body neither changes the environment
nor raises runs its body exactly `k` times, repeating its trace `k` times. -/
theorem execTop_forRange_fixed (env : Env) (v : String) (k : Nat) (body : Stmt)
    (ev : List String) (h : execSimple env body = (ev, env, none)) :
    execTop env (.forRange v (.intLit (Int.ofNat k)) body) = (repFlat k ev, env, none) := by
  have hi := execIterN_fixed body env ev h k
  rw [execTop_forRange]
  have hc : evalExpr env (.intLit (Int.ofNat k)) = ([], .ok (.int (Int.ofNat k))) := rfl
  rw [hc]
  show seqRes (([], env, none) : Res) (fun e => execIterN body (Int.ofNat k).toNat e) = _
  have ht : (Int.ofNat k).toNat = k := Int.toNat_ofNat k
  rw [seqRes_ok]
  simp [ht, hi]

/-- Running the EM loop: 10000 iterations of the alternating update pair. -/
theorem em_loop_exec (env0 : Env) :
    execTop (emEnvAfterPre env0) emLoopStmt =
      (repFlat 10000 emPairEvents, emEnvAfterPre env0, none) :=
  execTop_forRange_fixed (emEnvAfterPre env0) "_" 10000 emLoopBody emPairEvents
    (em_loop_body_exec env0)

/-- Running the whole EM cell over any environment binding the six names it
reads from earlier cells: the pre-loop events, then the 10000 alternating
update pairs, with no error. -/
theorem em_cell_exec (env0 : Env) (vN vD vK vbet vz vx : Val)
    (hN : lookup env0 "N" = some vN) (hD : lookup env0 "D" = some vD)
    (hK : lookup env0 "K" = some vK) (hbet : lookup env0 "beta" = some vbet)
    (hz : lookup env0 "z" = some vz) (hx : lookup env0 "x" = some vx) :
    execTop env0 varEmCell.stmts =
      (emPreEvents ++ repFlat 10000 emPairEvents, emEnvAfterPre env0, none) := by
  have hpre := em_pre_exec env0 vN vD vK vbet vz vx hN hD hK hbet hz hx
  have hcell : varEmCell.stmts = chain (emPreList ++ [emLoopStmt]) := rfl
  have h2 : execTop (emEnvAfterPre env0) (chain [emLoopStmt]) =
      (repFlat 10000 emPairEvents ++ [], emEnvAfterPre env0, none) := by
    have hs : execTop (emEnvAfterPre env0) (chain [emLoopStmt]) =
        seqRes (execTop (emEnvAfterPre env0) emLoopStmt)
          (fun e => execTop e Stmt.snil) := execTop_scons _ _ _
    rewrite [hs, em_loop_exec]
    exact seqRes_ok2 (fun e => execTop e Stmt.snil) (repFlat 10000 emPairEvents)
      (emEnvAfterPre env0) [] (emEnvAfterPre env0) none rfl
  calc execTop env0 varEmCell.stmts
      = seqRes (execTop env0 (chain emPreList))
          (fun e => execTop e (chain [emLoopStmt])) := by
        rewrite [hcell]
        exact execTop_chain_append emPreList [emLoopStmt] env0
    _ = (emPreEvents ++ (repFlat 10000 emPairEvents ++ []), emEnvAfterPre env0, none) := by
        rewrite [hpre]
        exact seqRes_ok2 (fun e => execTop e (chain [emLoopStmt])) emPreEvents
          (emEnvAfterPre env0) (repFlat 10000 emPairEvents ++ [])
          (emEnvAfterPre env0) none h2
    _ = (emPreEvents ++ repFlat 10000 emPairEvents, emEnvAfterPre env0, none) := by
        rewrite [List.append_nil]
        rfl

/-! ### The claims -/

/-- C1: the spec says every code cell, under the pinned library versions,
executes without raising an error.  The code does not: executing the
Figure 11 cell and the Figure 13 cell each raises an uncaught error (a
`TypeError` and a `NameError` respectively), so the property fails; the
two cells contain slips (`[[0] * N] * D` with `N` a list; `loc` for `mu`). -/
theorem C1_failing_cells :
    (execTop initialEnv fig11Cell.stmts).2.2 ≠ none ∧
    (execTop initialEnv fig13Cell.stmts).2.2 ≠ none := by
  constructor
  · intro h
    exact absurd h (by decide)
  · intro h
    exact absurd h (by decide)

/-- C2 (counterexample): not every code cell is self-contained.  The
Figure 6 (left) cell reads names (`N`, `D`, `K`, `beta`, `z`, `x`) it
neither imports nor defines, so the universal claim is false. -/
theorem C2_counterexample :
    cellSelfContained fig6LeftCell = false ∧
    (notebookCells.map Cell.cellName).contains "fig6_left" = true ∧
    notebookCells.all cellSelfContained = false := by decide

/-- C2 (amended): every cell other than Figure 6 left, Figure 6 right, the
variational EM cell and the Figure 13 cell is self-contained (every name it
reads is imported or bound in that same cell, or a fresh-interpreter
builtin).  The three inference cells for Figure 5 read only names bound by
the Figure 5 cell; the Figure 13 cell reads the name `loc`, which no cell
of the notebook binds. -/
theorem C2_amended :
    (notebookCells.filter (fun c =>
        !(["fig6_left", "fig6_right", "var_em", "fig13"].contains c.cellName))).all
      cellSelfContained = true ∧
    cellEscapes fig6LeftCell ≠ [] ∧
    (cellEscapes fig6LeftCell).all (fun n => (cellBinds fig5Cell).contains n) = true ∧
    cellEscapes fig6RightCell ≠ [] ∧
    (cellEscapes fig6RightCell).all (fun n => (cellBinds fig5Cell).contains n) = true ∧
    cellEscapes varEmCell ≠ [] ∧
    (cellEscapes varEmCell).all (fun n => (cellBinds fig5Cell).contains n) = true ∧
    cellEscapes fig13Cell = ["loc"] ∧
    notebookCells.all (fun c => !(cellBinds c).contains "loc") = true := by decide

/-- C3: executing the Figure 13 cell raises `NameError` at its final
statement (`x = Normal(loc=loc, ...)`): the prefix before it runs without
error, the cell's execution ends with `NameError` on `loc`, the name `x` is
never bound, and no cell of the notebook binds `loc` (so the error occurs
regardless of which cells ran before). -/
theorem C3_fig13_name_error :
    (execTop initialEnv (chain (fig13List.take 6))).2.2 = none ∧
    (execTop initialEnv fig13Cell.stmts).2.2 = some (.nameError "loc") ∧
    lookup (execTop initialEnv fig13Cell.stmts).2.1 "x" = none ∧
    notebookCells.all (fun c => !(cellBinds c).contains "loc") = true := by
  refine ⟨by decide, by decide, rfl, by decide⟩

/-- C4: executing the Figure 11 cell raises `TypeError` at the statement
`z = [[0] * N] * D`: the eight statements before it run without error, `N`
is bound to the Python list `[11502, 213, 1523, 1351]`, multiplying the
list `[0]` by it raises `TypeError`, `z` is never bound, and no
`Categorical` call is ever performed — the nested loops are never reached. -/
theorem C4_fig11_type_error :
    (execTop initialEnv (chain (fig11List.take 8))).2.2 = none ∧
    (execTop initialEnv (chain (fig11List.take 9))).2.2 =
      some (.typeError "cannot multiply sequence by non-int") ∧
    (execTop initialEnv fig11Cell.stmts).2.2 =
      some (.typeError "cannot multiply sequence by non-int") ∧
    lookup (execTop initialEnv fig11Cell.stmts).2.1 "N" =
      some (.listv [.int 11502, .int 213, .int 1523, .int 1351]) ∧
    lookup (execTop initialEnv fig11Cell.stmts).2.1 "z" = none ∧
    (execTop initialEnv fig11Cell.stmts).1.contains "Categorical" = false := by
  refine ⟨by decide, by decide, by decide, rfl, rfl, by decide⟩

/-- C5 (counterexample): it is not the case that no cell contains loops or
conditionals: the Figure 11 cell contains nested `for` loops and the
variational EM cell contains a `for` loop of 10000 iterations. -/
theorem C5_counterexample :
    cellHasLoopOrCond fig11Cell = true ∧
    cellHasLoopOrCond varEmCell = true ∧
    notebookCells.all (fun c => !cellHasLoopOrCond c) = false := by decide

/-- C5 (amended): every cell other than the Figure 11 cell and the
variational EM cell contains no loop and no conditional; those two cells
each contain `for` loops. -/
theorem C5_amended :
    (notebookCells.filter (fun c => !(["fig11", "var_em"].contains c.cellName))).all
      (fun c => !cellHasLoopOrCond c) = true ∧
    cellHasLoopOrCond fig11Cell = true ∧
    cellHasLoopOrCond varEmCell = true := by decide

/-- C6: no cell of the notebook contains a `try`/`except` handler, and in
the semantics the first error a statement raises is the uncaught outcome of
the whole sequence it starts: an error propagates past any following
statements. -/
theorem C6_no_try_and_errors_propagate :
    notebookCells.all cellNoTry = true ∧
    ∀ (env : Env) (s rest : Stmt) (err : PyError),
      (execTop env s).2.2 = some err →
      (execTop env (.scons s rest)).2.2 = some err := by
  refine ⟨by decide, ?_⟩
  intro env s rest err h
  rw [execTop_scons]
  rcases h1 : execTop env s with ⟨t1, env1, err1⟩
  rw [h1] at h
  simp only at h
  subst h
  rfl

/-- C6 (witness): propagation at a concrete input — a two-statement
sequence whose first statement raises `NameError` ends with that error. -/
theorem C6_witness :
    (execTop initialEnv (Stmt.scons (.exprStmt (nv "undefined_name"))
        (Stmt.scons (.exprStmt (nv "other_name")) .snil))).2.2 =
      some (.nameError "undefined_name") :=
  C6_no_try_and_errors_propagate.2 initialEnv (.exprStmt (nv "undefined_name"))
    (Stmt.scons (.exprStmt (nv "other_name")) .snil)
    (.nameError "undefined_name") (by decide)

/-- C7 (counterexample): the notebook does define functions of its own —
`rnn_cell`, `generative_network`, `discriminative_network` — and the
Figure 7 cell itself calls `generative_network`. -/
theorem C7_counterexample :
    notebookFuncDefs ≠ [] ∧
    notebookFuncDefs = ["rnn_cell", "generative_network", "discriminative_network"] ∧
    "generative_network" ∈ cellCallRoots fig7Cell := by decide

/-- C7 (amended): apart from the three helper functions the notebook
defines (`rnn_cell`, `generative_network`, `discriminative_network`), every
callable any cell invokes resolves, by its root name, to a name imported
from the external libraries, a name the cell bound to a library-created
object, or a builtin. -/
theorem C7_amended :
    notebookFuncDefs = ["rnn_cell", "generative_network", "discriminative_network"] ∧
    notebookCells.all (fun c => (cellCallRoots c).all
      (fun r => (cellBinds c).contains r || builtinNames.contains r)) = true := by decide

/-- C8: the notebook defines no data model of its own: no cell contains a
`class` definition, and every call any cell makes resolves to an imported
library name, a cell-local binding, or a builtin — the entities cells
create are instances of library-owned types. -/
theorem C8_no_own_data_model :
    notebookCells.all cellNoClassDef = true ∧
    notebookCells.all (fun c => (cellCallRoots c).all
      (fun r => (cellBinds c).contains r || builtinNames.contains r)) = true := by decide

/-- C9: the notebook imports no concurrency, scheduling, caching, protocol
or pooling module, and no component of any callee name it invokes is a
concurrency, scheduling, caching or pooling operation. -/
theorem C9_no_concurrency :
    notebookImportedModules.all (fun m => !concurrencyModuleNames.contains m) = true ∧
    notebookCallParts.all (fun s => !concurrencyCallNames.contains s) = true := by decide

/-- C10: the seven cells before the variational EM cell run without error,
and from any kernel state binding the six names the EM cell reads
(`N`, `D`, `K`, `beta`, `z`, `x`), the EM cell runs without error and its
call trace is exactly the thirteen pre-loop events followed by 10000
repetitions of `inference_e.update` then `inference_m.update` — the loop
runs exactly 10000 iterations, each one E-step update then one M-step
update, in that order, with no other operation in between. -/
theorem C10_variational_em_loop :
    cellsErrors initialEnv priorCells = List.replicate 7 none ∧
    ∀ (env0 : Env) (vN vD vK vbet vz vx : Val),
      lookup env0 "N" = some vN → lookup env0 "D" = some vD →
      lookup env0 "K" = some vK → lookup env0 "beta" = some vbet →
      lookup env0 "z" = some vz → lookup env0 "x" = some vx →
      (execTop env0 varEmCell.stmts).2.2 = none ∧
      (execTop env0 varEmCell.stmts).1 =
        emPreEvents ++ repFlat 10000 emPairEvents := by
  refine ⟨by decide, ?_⟩
  intro env0 vN vD vK vbet vz vx hN hD hK hbet hz hx
  have h := em_cell_exec env0 vN vD vK vbet vz vx hN hD hK hbet hz hx
  constructor
  · rewrite [h]
    rfl
  · rewrite [h]
    rfl

/-- C10 (witness): the EM cell run over a minimal six-binding kernel state:
no error, and the trace is the pre-loop events plus the 10000 pairs. -/
theorem C10_witness :
    (execTop emWitnessEnv varEmCell.stmts).2.2 = none ∧
    (execTop emWitnessEnv varEmCell.stmts).1 =
      emPreEvents ++ repFlat 10000 emPairEvents :=
  C10_variational_em_loop.2 emWitnessEnv (.obj "vN") (.obj "vD") (.obj "vK")
    (.obj "vbeta") (.obj "vz") (.obj "vx") rfl rfl rfl rfl rfl rfl

end Iclr2017
